import Mathlib

/-!
# Verification of the SPLF aggregation pipeline (`splf_app.py`)

Shallow embedding of the aggregation/scoring pipeline of the SPLF fantasy
league dashboard: the standings aggregator (join + group-by + money/quota),
the historical stats calculator, and the rivalry matrix builder.

Machine floats of pandas are modelled with `ℚ` (the inputs are integers and
the only divisions are by small constants, so every value that appears is an
exact rational; discrepancies proved here are far beyond any 1e-6 float
tolerance).  pandas data frames are modelled as lists of records; a group-by
is modelled as the sorted list of distinct keys together with per-key
aggregation, matching pandas' default `sort=True`.
-/

namespace SPLF

/-! ## Sorting helpers

`pandas.DataFrame.sort_values(..., ascending=False)` on a single column goes
through pandas `nargsort`, which reverses the values and the index array
BEFORE taking a numpy ascending argsort and reverses the resulting indexer
again afterwards; for the short arrays occurring here (≤ 16 rows) numpy's
introsort runs its stable insertion-sort path.  The two reversals cancel on
tied keys, so a descending `sort_values` keeps tied rows in their original
relative order.  The faithful model is therefore: reverse the list, sort it
ascending with a stable sort, reverse the result.  `sortAscBy` is a stable
insertion sort by a rational key (Mathlib's `insertionSort`). -/

def sortAscBy {α : Type} (key : α → ℚ) (l : List α) : List α :=
  l.insertionSort (fun a b => key a ≤ key b)

def pandasSortDesc {α : Type} (key : α → ℚ) (l : List α) : List α :=
  (sortAscBy key l.reverse).reverse

/-- Ascending insertion of a string into a sorted list (group keys hold no
duplicates, so only `<` matters). -/
def insortStr (a : String) : List String → List String
  | [] => [a]
  | b :: l => if a < b then a :: b :: l else b :: insortStr a l

/-- Sort a list of group keys ascending, as pandas `groupby(sort=True)` does. -/
def sortStrs : List String → List String
  | [] => []
  | a :: l => insortStr a (sortStrs l)

/-- The sorted list of distinct group keys, as produced by a pandas
`groupby` with the default `sort=True`. -/
def groupKeys (l : List String) : List String :=
  sortStrs l.dedup

/-! ## Standings Aggregator (`splf_app.py` lines 189–212)

`TableRow` is one row of `epl_df` after the rename on line 192 (the feed's
team name already normalized); `Assignment` is one row of
`data/team_assignments.csv`. -/

structure TableRow where
  team : String
  pts : Int
  gp : Int
  w : Int
  d : Int
  l : Int
  gd : Int
deriving Repr, DecidableEq

structure Assignment where
  team : String
  owner : String
deriving Repr, DecidableEq

structure MergedRow where
  owner : String
  pts : Int
  gp : Int
  w : Int
  d : Int
  l : Int
  gd : Int
deriving Repr, DecidableEq

/-- One assignment row of `pd.merge(assignments, epl_df, on="Team", how="left")`
(line 196): matched against each feed row with the same team name; a team
absent from the feed contributes a single all-zero row (the `.fillna(0)`). -/
def mergeOne (a : Assignment) (epl : List TableRow) : List MergedRow :=
  let ms := epl.filter (fun r => r.team = a.team)
  if ms.isEmpty then [⟨a.owner, 0, 0, 0, 0, 0, 0⟩]
  else ms.map fun r => ⟨a.owner, r.pts, r.gp, r.w, r.d, r.l, r.gd⟩

/-- Line 196: the full left join, one block of merged rows per assignment row. -/
def mergeAssignments : List Assignment → List TableRow → List MergedRow
  | [], _ => []
  | a :: rest, epl => mergeOne a epl ++ mergeAssignments rest epl

/-- The distinct owners of the post-join table, sorted as pandas
`groupby("Owner")` sorts its keys (lines 199–206). -/
def standingsOwners (merged : List MergedRow) : List String :=
  groupKeys (merged.map (·.owner))

/-- Per-owner `Pts` sum of `owner_stats` (lines 199–206). -/
def ownerPts (merged : List MergedRow) (o : String) : Int :=
  ((merged.filter (fun r => r.owner = o)).map (·.pts)).sum

/-- Line 209: `total_league_points = owner_stats['Pts'].sum()`. -/
def total_league_points (merged : List MergedRow) : Int :=
  ((standingsOwners merged).map (ownerPts merged)).sum

/-- Line 210: `quota = total_league_points / 5`. -/
def quota (merged : List MergedRow) : ℚ :=
  (total_league_points merged : ℚ) / 5

/-- Line 211: `owner_stats['Money'] = (owner_stats['Pts'] - quota) * 10`. -/
def ownerMoneyLive (merged : List MergedRow) (o : String) : ℚ :=
  ((ownerPts merged o : ℚ) - quota merged) * 10

/-- The sum of the `Money` column over all owners of `owner_stats`. -/
def sumMoneyLive (merged : List MergedRow) : ℚ :=
  ((standingsOwners merged).map (ownerMoneyLive merged)).sum

/-! Concrete standings input with two owners: the assignment table maps
`TeamA` to owner `O1` and `TeamB` to owner `O2`, and the feed gives each
team 10 points. -/

def exAssign2 : List Assignment := [⟨"TeamA", "O1"⟩, ⟨"TeamB", "O2"⟩]

def exFeed2 : List TableRow :=
  [⟨"TeamA", 10, 10, 3, 1, 6, 0⟩, ⟨"TeamB", 10, 10, 3, 1, 6, 0⟩]

def exMerged2 : List MergedRow := mergeAssignments exAssign2 exFeed2

/-! ## Historical Stats Calculator (`calculate_historical_stats`, lines 44–109)

`HistRow` is one row of `data/SPLF - HistTables.csv` (one team's finish in
one season). -/

structure HistRow where
  season : String
  owner : String
  team : String
  rank : Int
  pts : Int
  w : Int
  d : Int
  l : Int
  gd : Int
deriving Repr, DecidableEq

/-- Distinct owners of the archive, sorted as `groupby("Owner")` sorts them
(line 52). -/
def histOwners (df : List HistRow) : List String :=
  groupKeys (df.map (·.owner))

/-- Owners with at least one row in season `s`: the `Owner` keys of the inner
`groupby(['Season', 'Owner'])` of line 61 restricted to `s`, sorted. -/
def seasonOwnersIn (df : List HistRow) (s : String) : List String :=
  groupKeys ((df.filter (fun r => r.season = s)).map (·.owner))

/-- One `Pts` entry of `season_stats` (line 61): owner `o`'s summed points in
season `s`. -/
def seasonOwnerPts (df : List HistRow) (s o : String) : Int :=
  ((df.filter (fun r => r.season = s ∧ r.owner = o)).map (·.pts)).sum

/-- One `Season_Total` entry of `season_totals` (lines 64–65): the season's
points summed over its `season_stats` rows. -/
def seasonTotal (df : List HistRow) (s : String) : Int :=
  ((seasonOwnersIn df s).map (seasonOwnerPts df s)).sum

/-- Line 69: `season_stats['Quota'] = season_stats['Season_Total'] / 5`. -/
def seasonQuota (df : List HistRow) (s : String) : ℚ :=
  (seasonTotal df s : ℚ) / 5

/-- Line 70: `season_stats['Money'] = (season_stats['Pts'] - season_stats['Quota']) * 10`. -/
def seasonMoney (df : List HistRow) (s o : String) : ℚ :=
  ((seasonOwnerPts df s o : ℚ) - seasonQuota df s) * 10

/-- The seasons owner `o` appears in (the `season_stats` rows of `o`),
sorted as the `Season` group keys are. -/
def ownerSeasons (df : List HistRow) (o : String) : List String :=
  groupKeys ((df.filter (fun r => r.owner = o)).map (·.season))

/-- Line 73: `summary['Money'] = season_stats.groupby('Owner')['Money'].sum()`
— owner `o`'s cumulative money is the sum of its per-season deltas. -/
def ownerMoneyHist (df : List HistRow) (o : String) : ℚ :=
  ((ownerSeasons df o).map (fun s => seasonMoney df s o)).sum

/-- Lines 76–80: the team-medal scale applied to one row's `Rank`. -/
def teamMedal (rank : Int) : Int :=
  if rank = 1 then 4 else if rank = 2 then 3 else if rank = 3 then 2
  else if rank = 4 then 1 else 0

/-- Line 82: `summary['Team Medals'] = raw_df.groupby('Owner')['Team_Medals'].sum()`. -/
def ownerTeamMedals (df : List HistRow) (o : String) : Int :=
  ((df.filter (fun r => r.owner = o)).map (fun r => teamMedal r.rank)).sum

/-- Line 85: a row counts as relegated iff its `Rank` is ≥ 18. -/
def relegatedFlag (rank : Int) : Int :=
  if rank ≥ 18 then 1 else 0

/-- Line 86: `summary['Teams Relagated'] = raw_df.groupby('Owner')['Relegated'].sum()`. -/
def ownerRelegations (df : List HistRow) (o : String) : Int :=
  ((df.filter (fun r => r.owner = o)).map (fun r => relegatedFlag r.rank)).sum

/-- Line 89: `season_stats.groupby('Season')['Pts'].rank(ascending=False,
method='min')` — within season `s`, owner `o`'s rank is one more than the
number of owners of that season with strictly more points. -/
def rankInSeason (df : List HistRow) (s o : String) : Nat :=
  1 + ((seasonOwnersIn df s).filter
    (fun o2 => seasonOwnerPts df s o < seasonOwnerPts df s o2)).length

/-- Lines 91–97: `get_player_medals`. -/
def get_player_medals (rank : Nat) : Int :=
  if rank = 1 then 5 else if rank = 2 then 4 else if rank = 3 then 3
  else if rank = 4 then 2 else if rank = 5 then 1 else 0

/-- Line 100: `summary['Player Medals'] = season_stats.groupby('Owner')['Player_Medals'].sum()`. -/
def ownerPlayerMedals (df : List HistRow) (o : String) : Int :=
  ((ownerSeasons df o).map (fun s => get_player_medals (rankInSeason df s o))).sum

/-- One row of the `summary` frame right before the final sort (lines 52–100). -/
structure SummaryRow where
  owner : String
  pts : Int
  w : Int
  d : Int
  l : Int
  gd : Int
  money : ℚ
  teamMedals : Int
  relegations : Int
  playerMedals : Int
deriving Repr, DecidableEq

/-- Per-owner sum of one base column of the archive (line 52). -/
def ownerColSum (df : List HistRow) (o : String) (col : HistRow → Int) : Int :=
  ((df.filter (fun r => r.owner = o)).map col).sum

def mkSummaryRow (df : List HistRow) (o : String) : SummaryRow :=
  ⟨o, ownerColSum df o (·.pts), ownerColSum df o (·.w), ownerColSum df o (·.d),
   ownerColSum df o (·.l), ownerColSum df o (·.gd), ownerMoneyHist df o,
   ownerTeamMedals df o, ownerRelegations df o, ownerPlayerMedals df o⟩

/-- The `summary` frame after `reset_index()` (line 103): one row per distinct
owner, in the sorted key order of `groupby("Owner")`. -/
def summaryRows (df : List HistRow) : List SummaryRow :=
  (histOwners df).map (mkSummaryRow df)

/-- One row of the final purple table: the 1-based `Rank` produced on lines
105–107 together with the summary row it was assigned to. -/
structure RankedRow where
  rank : Nat
  row : SummaryRow
deriving Repr, DecidableEq

/-- Lines 44–109, `calculate_historical_stats`: empty archive → empty frame
(line 49); otherwise build `summary`, sort it by `Money` descending
(line 104, pandas `sort_values` with the default unstable kind, see
`pandasSortDesc`), and assign ranks 1..N by position (lines 105–107). -/
def calculate_historical_stats (df : List HistRow) : List RankedRow :=
  if df.isEmpty then []
  else
    ((pandasSortDesc (·.money) (summaryRows df)).enumFrom 1).map fun p => ⟨p.1, p.2⟩

/-- The base schema of `data/SPLF - HistTables.csv` (line 47 of the source
docstring). -/
def histTablesCols : List String :=
  ["Season", "Owner", "Team", "Rank", "Pts", "W", "D", "L", "GD"]

/-- A raw pandas data frame: its rows together with the names of its columns
(the mutable object identity that `calculate_historical_stats` receives). -/
structure RawDF where
  rows : List HistRow
  cols : List String
deriving Repr, DecidableEq

/-- Python column assignment `df[c] = ...`: adds column `c` unless present. -/
def addCol (cols : List String) (c : String) : List String :=
  if cols.contains c then cols else cols ++ [c]

/-- State-passing embedding of the call `calculate_historical_stats(raw_df)`:
the returned pair is (result, the caller's data frame after the call).
Lines 76 (`raw_df['Team_Medals'] = 0`) and 85 (`raw_df['Relegated'] = ...`)
assign new columns on the data frame object the caller passed in, so the
input comes back with two extra columns whenever the archive is non-empty
(on an empty archive line 49 returns before the mutation). -/
def calculate_historical_stats_df (raw_df : RawDF) : List RankedRow × RawDF :=
  if raw_df.rows.isEmpty then ([], raw_df)
  else
    (calculate_historical_stats raw_df.rows,
     ⟨raw_df.rows, addCol (addCol raw_df.cols "Team_Medals") "Relegated"⟩)

/-! Concrete archives used to settle the claims. -/

/-- A one-season archive with two owners, 10 points each. -/
def hist2 : List HistRow :=
  [⟨"S1", "O1", "T1", 5, 10, 3, 1, 6, 0⟩, ⟨"S1", "O2", "T2", 6, 10, 3, 1, 6, 0⟩]

/-- The literal player-medal fixture of the spec: one season, five owners
with season points [50, 40, 40, 30, 20]. -/
def hist5 : List HistRow :=
  [⟨"S1", "O1", "T1", 5, 50, 15, 5, 18, 20⟩,
   ⟨"S1", "O2", "T2", 6, 40, 12, 4, 22, 10⟩,
   ⟨"S1", "O3", "T3", 7, 40, 12, 4, 22, 8⟩,
   ⟨"S1", "O4", "T4", 8, 30, 9, 3, 26, -5⟩,
   ⟨"S1", "O5", "T5", 9, 20, 6, 2, 30, -20⟩]

/-- The raw data frame handed to the calculator in the C9 scenario: the
`hist2` archive with the base CSV schema. -/
def histDF2 : RawDF := ⟨hist2, histTablesCols⟩

/-! ## Rivalry Matrix Builder (`generate_rivalry_matrix`, lines 111–176)

`MatchRec` is one entry of the feed's matches document: `winner` is the raw
`m['score']['winner']` value, `none` standing for JSON `null`. -/

structure MatchRec where
  status : String
  homeTeam : String
  awayTeam : String
  winner : Option String
deriving Repr, DecidableEq

/-- The matches document; its single field is the JSON key `matches`
(`matchRows` here, `matches` being reserved in Lean).  The argument
`matches_json` of the builder is an `Option MatchesDoc`, `none` standing for
a failed live fetch. -/
structure MatchesDoc where
  matchRows : List MatchRec
deriving Repr, DecidableEq

/-- Lines 114–118: the reverse name map — each assignment row binds the bare
team name and its `" FC"` / `" AFC"` suffixed variants to the owner.
Represented as the insertion-ordered key/value list of the Python dict. -/
def buildOwnerMap (assignments : List Assignment) : List (String × String) :=
  assignments.foldl
    (fun m a => m ++ [(a.team, a.owner), (a.team ++ " FC", a.owner), (a.team ++ " AFC", a.owner)])
    []

/-- Python dict lookup: the latest binding of a key wins. -/
def dictGet (m : List (String × String)) (k : String) : Option String :=
  m.reverse.lookup k

/-- A tally `[wins_p1, draws, wins_p2]` of one canonical pair (line 143). -/
abbrev Tally := Nat × Nat × Nat

/-- Line 144: `rivalries[pair][res_idx] += 1` for `res_idx` 0, 1 or 2. -/
def bumpIdx (t : Tally) (i : Nat) : Tally :=
  match i, t with
  | 0, (a, d, b) => (a + 1, d, b)
  | 1, (a, d, b) => (a, d + 1, b)
  | _, (a, d, b) => (a, d, b + 1)

/-- Lines 143–144 on the insertion-ordered rivalries dict: create the
`[0, 0, 0]` entry if the pair is new, then bump the `res_idx` counter. -/
def bumpPair (riv : List ((String × String) × Tally)) (pair : String × String) (i : Nat) :
    List ((String × String) × Tally) :=
  if riv.any (fun e => e.1 = pair) then
    riv.map (fun e => if e.1 = pair then (e.1, bumpIdx e.2 i) else e)
  else riv ++ [(pair, bumpIdx (0, 0, 0) i)]

/-- Line 136: `res_idx = 0 if winner == 'HOME_TEAM' else (2 if winner ==
'AWAY_TEAM' else 1)` — the branch taken when `owner_home < owner_away`.
A `None` winner falls into the final `else` and is counted as a draw. -/
def resIdxLt (w : Option String) : Nat :=
  if w = some "HOME_TEAM" then 0 else if w = some "AWAY_TEAM" then 2 else 1

/-- Lines 139–141: the orientation-flipped `res_idx` taken when
`owner_home > owner_away`; again `None` falls into `else: res_idx = 1`. -/
def resIdxGt (w : Option String) : Nat :=
  if w = some "HOME_TEAM" then 2 else if w = some "AWAY_TEAM" then 0 else 1

/-- Lines 123–144, the body of the tally loop for one match `m`: only
`FINISHED` matches with both raw team names in the owner map count;
self-matches (`owner_home == owner_away`) are skipped (line 132); the pair
key is the alphabetically ordered owner pair (lines 134–141). -/
def processMatch (owner_map : List (String × String))
    (riv : List ((String × String) × Tally)) (m : MatchRec) :
    List ((String × String) × Tally) :=
  if m.status = "FINISHED" then
    match dictGet owner_map m.homeTeam, dictGet owner_map m.awayTeam with
    | some owner_home, some owner_away =>
      if owner_home = owner_away then riv
      else if owner_home < owner_away then
        bumpPair riv (owner_home, owner_away) (resIdxLt m.winner)
      else
        bumpPair riv (owner_away, owner_home) (resIdxGt m.winner)
    | _, _ => riv
  else riv

/-- The full tally loop of lines 123–144. -/
def tallyMatches (owner_map : List (String × String)) (ms : List MatchRec) :
    List ((String × String) × Tally) :=
  ms.foldl (processMatch owner_map) []

/-- One row of the rivalry output table (lines 165–171). -/
structure RivalryRow where
  matchup : String
  leader : String
  record : String
  totalGames : Nat
  dominancePct : ℚ
deriving Repr, DecidableEq

/-- Lines 147–171: turn one tallied pair into an output row; a pair with
zero total games is dropped (line 150, defensive). -/
def mkRivalryRow (p1 p2 : String) (t : Tally) : Option RivalryRow :=
  let w1 := t.1
  let d := t.2.1
  let w2 := t.2.2
  let total := w1 + d + w2
  if total = 0 then none
  else if w2 < w1 then
    some ⟨p1 ++ " vs " ++ p2, p1,
      toString w1 ++ "W - " ++ toString d ++ "D - " ++ toString w2 ++ "L",
      total, (w1 : ℚ) / (total : ℚ) * 100⟩
  else if w1 < w2 then
    some ⟨p1 ++ " vs " ++ p2, p2,
      toString w2 ++ "W - " ++ toString d ++ "D - " ++ toString w1 ++ "L",
      total, (w2 : ℚ) / (total : ℚ) * 100⟩
  else
    some ⟨p1 ++ " vs " ++ p2, "Tied",
      toString w1 ++ "W - " ++ toString d ++ "D - " ++ toString w2 ++ "L",
      total, 50⟩

/-- Lines 111–176, `generate_rivalry_matrix`: a missing matches document
(`None`, line 112) yields an empty frame; otherwise tally all matches, build
the rows, and sort by `Dominance %` descending (line 175, pandas
`sort_values`, see `pandasSortDesc`). -/
def generate_rivalry_matrix (matches_json : Option MatchesDoc)
    (assignments : List Assignment) : List RivalryRow :=
  match matches_json with
  | none => []
  | some doc =>
    let owner_map := buildOwnerMap assignments
    let rivalries := tallyMatches owner_map doc.matchRows
    let data := rivalries.filterMap (fun e => mkRivalryRow e.1.1 e.1.2 e.2)
    pandasSortDesc (·.dominancePct) data

/-- Swap the home/away orientation of a match, exchanging `HOME_TEAM` and
`AWAY_TEAM` in the winner field (a draw or a `null` winner is unchanged). -/
def swapWinner (w : Option String) : Option String :=
  if w = some "HOME_TEAM" then some "AWAY_TEAM"
  else if w = some "AWAY_TEAM" then some "HOME_TEAM"
  else w

/-- The same match with home and away exchanged. -/
def swapMatch (m : MatchRec) : MatchRec :=
  ⟨m.status, m.awayTeam, m.homeTeam, swapWinner m.winner⟩

/-- The two-owner assignment table of the C4 scenario. -/
def exAssign4 : List Assignment := [⟨"Arsenal", "Adam"⟩, ⟨"Chelsea", "Ben"⟩]

/-- A finished match whose winner is JSON `null`. -/
def nullWinnerMatch : MatchRec := ⟨"FINISHED", "Arsenal", "Chelsea", none⟩

/-- An assignment table where both teams belong to the same owner. -/
def exAssign6 : List Assignment := [⟨"Arsenal", "Adam"⟩, ⟨"Chelsea", "Adam"⟩]

/-- A finished match between two teams of the same owner (a self-match). -/
def selfMatch : MatchRec := ⟨"FINISHED", "Arsenal", "Chelsea", some "HOME_TEAM"⟩

/-- A finished home win between Adam's and Ben's teams (C5 witness input). -/
def homeWinMatch : MatchRec := ⟨"FINISHED", "Arsenal", "Chelsea", some "HOME_TEAM"⟩

end SPLF

namespace SPLF

/-- C1: the Standings Aggregator's quota is the hardcoded `total / 5` of
line 210, not `total / owner_count`: with 2 owners and 20 total points the
code computes quota 4 while the claimed formula gives 10. -/
theorem C1_quota_is_hardcoded_five :
    quota exMerged2 = 4 ∧
    (standingsOwners exMerged2).length = 2 ∧
    total_league_points exMerged2 = 20 ∧
    quota exMerged2 ≠
      (total_league_points exMerged2 : ℚ) / ((standingsOwners exMerged2).length : ℚ) := by
  have ho : standingsOwners exMerged2 = ["O1", "O2"] := by
    simp only [standingsOwners, exMerged2, mergeAssignments, mergeOne, exAssign2, exFeed2,
      List.filter, String.reduceEq, decide_True, decide_False, List.isEmpty_cons,
      List.isEmpty_nil, Bool.false_eq_true, if_false, reduceIte, List.map_cons, List.map_nil,
      List.cons_append, List.nil_append, groupKeys, List.dedup_cons_of_mem,
      List.dedup_cons_of_not_mem, List.dedup_nil, List.mem_cons, List.not_mem_nil,
      or_false, not_false_iff, sortStrs, insortStr, String.reduceLT]
  have ht : total_league_points exMerged2 = 20 := by
    rw [total_league_points, ho]
    simp only [ownerPts, exMerged2, mergeAssignments, mergeOne, exAssign2, exFeed2,
      List.filter, String.reduceEq, decide_True, decide_False, List.isEmpty_cons,
      List.isEmpty_nil, Bool.false_eq_true, if_false, reduceIte, List.map_cons, List.map_nil,
      List.cons_append, List.nil_append, List.sum_cons, List.sum_nil]
    norm_num
  have hq : quota exMerged2 = 4 := by
    rw [quota, ht]; norm_num
  refine ⟨hq, by rw [ho]; rfl, ht, ?_⟩
  rw [hq, ht, ho]
  norm_num

/-- C2: the zero-sum money property fails on the code for owner counts other
than 5: with 2 owners of 10 points each, each owner's money is
(10 − 20/5) · 10 = 60, so the sum is 120, far beyond the 1e-6 tolerance. -/
theorem C2_money_not_zero_sum :
    sumMoneyLive exMerged2 = 120 ∧ ¬ |sumMoneyLive exMerged2| ≤ 1 / 1000000 := by
  have ho : standingsOwners exMerged2 = ["O1", "O2"] := by
    simp only [standingsOwners, exMerged2, mergeAssignments, mergeOne, exAssign2, exFeed2,
      List.filter, String.reduceEq, decide_True, decide_False, List.isEmpty_cons,
      List.isEmpty_nil, Bool.false_eq_true, if_false, reduceIte, List.map_cons, List.map_nil,
      List.cons_append, List.nil_append, groupKeys, List.dedup_cons_of_mem,
      List.dedup_cons_of_not_mem, List.dedup_nil, List.mem_cons, List.not_mem_nil,
      or_false, not_false_iff, sortStrs, insortStr, String.reduceLT]
  have ht : total_league_points exMerged2 = 20 := by
    rw [total_league_points, ho]
    simp only [ownerPts, exMerged2, mergeAssignments, mergeOne, exAssign2, exFeed2,
      List.filter, String.reduceEq, decide_True, decide_False, List.isEmpty_cons,
      List.isEmpty_nil, Bool.false_eq_true, if_false, reduceIte, List.map_cons, List.map_nil,
      List.cons_append, List.nil_append, List.sum_cons, List.sum_nil]
    norm_num
  have h1 : ownerPts exMerged2 "O1" = 10 := by
    simp only [ownerPts, exMerged2, mergeAssignments, mergeOne, exAssign2, exFeed2,
      List.filter, String.reduceEq, decide_True, decide_False, List.isEmpty_cons,
      List.isEmpty_nil, Bool.false_eq_true, if_false, reduceIte, List.map_cons, List.map_nil,
      List.cons_append, List.nil_append, List.sum_cons, List.sum_nil]
    norm_num
  have h2 : ownerPts exMerged2 "O2" = 10 := by
    simp only [ownerPts, exMerged2, mergeAssignments, mergeOne, exAssign2, exFeed2,
      List.filter, String.reduceEq, decide_True, decide_False, List.isEmpty_cons,
      List.isEmpty_nil, Bool.false_eq_true, if_false, reduceIte, List.map_cons, List.map_nil,
      List.cons_append, List.nil_append, List.sum_cons, List.sum_nil]
    norm_num
  have hs : sumMoneyLive exMerged2 = 120 := by
    rw [sumMoneyLive, ho]
    simp only [List.map_cons, List.map_nil, List.sum_cons, List.sum_nil, ownerMoneyLive,
      quota, ht, h1, h2]
    norm_num
  refine ⟨hs, by rw [hs]; norm_num⟩

end SPLF

namespace SPLF

/-- C3: the Historical Stats Calculator's per-season quota is the hardcoded
`Season_Total / 5` of line 69, not the season total divided by the number of
owners present that season: for a season with 2 owners and 20 total points
the code computes quota 4 where the claimed formula gives 10, and the
per-season money deltas (and hence the cumulative money) inherit the skewed
quota — each owner of `hist2` ends up with money 60 instead of 0. -/
theorem C3_season_quota_hardcoded_five :
    seasonQuota hist2 "S1" = 4 ∧
    (seasonOwnersIn hist2 "S1").length = 2 ∧
    seasonTotal hist2 "S1" = 20 ∧
    seasonQuota hist2 "S1" ≠
      (seasonTotal hist2 "S1" : ℚ) / ((seasonOwnersIn hist2 "S1").length : ℚ) ∧
    ownerMoneyHist hist2 "O1" = 60 := by
  have hso : seasonOwnersIn hist2 "S1" = ["O1", "O2"] := by
    simp [seasonOwnersIn, groupKeys, sortStrs, insortStr, hist2,
      -String.lt_iff_toList_lt, -String.le_iff_toList_le]
  have hp1 : seasonOwnerPts hist2 "S1" "O1" = 10 := by
    simp [seasonOwnerPts, hist2]
  have hp2 : seasonOwnerPts hist2 "S1" "O2" = 10 := by
    simp [seasonOwnerPts, hist2]
  have ht : seasonTotal hist2 "S1" = 20 := by
    rw [seasonTotal, hso]
    simp [hp1, hp2]
  have hq : seasonQuota hist2 "S1" = 4 := by
    rw [seasonQuota, ht]; norm_num
  have hos : ownerSeasons hist2 "O1" = ["S1"] := by
    simp [ownerSeasons, groupKeys, sortStrs, insortStr, hist2,
      -String.lt_iff_toList_lt, -String.le_iff_toList_le]
  refine ⟨hq, by rw [hso]; rfl, ht, ?_, ?_⟩
  · rw [hq, ht, hso]; norm_num
  · rw [ownerMoneyHist, hos]
    simp [seasonMoney, hq, hp1]
    norm_num

/-- C7: player medals follow the min-rank tie rule and the 1→5 … 5→1 scale:
on the spec's literal fixture (five owners, one season, points
[50, 40, 40, 30, 20]) the season ranks are [1, 2, 2, 4, 5] and the player
medals are [5, 4, 4, 2, 1], and the rank → medal table is
1→5, 2→4, 3→3, 4→2, 5→1, else→0. -/
theorem C7_player_medals_fixture :
    (histOwners hist5).map (rankInSeason hist5 "S1") = [1, 2, 2, 4, 5] ∧
    (summaryRows hist5).map (·.playerMedals) = [5, 4, 4, 2, 1] ∧
    get_player_medals 1 = 5 ∧ get_player_medals 2 = 4 ∧ get_player_medals 3 = 3 ∧
    get_player_medals 4 = 2 ∧ get_player_medals 5 = 1 ∧
    get_player_medals 6 = 0 ∧ get_player_medals 0 = 0 := by
  have hko : histOwners hist5 = ["O1", "O2", "O3", "O4", "O5"] := by
    simp [histOwners, groupKeys, sortStrs, insortStr, hist5,
      -String.lt_iff_toList_lt, -String.le_iff_toList_le]
  have hso : seasonOwnersIn hist5 "S1" = ["O1", "O2", "O3", "O4", "O5"] := by
    simp [seasonOwnersIn, groupKeys, sortStrs, insortStr, hist5,
      -String.lt_iff_toList_lt, -String.le_iff_toList_le]
  have hp1 : seasonOwnerPts hist5 "S1" "O1" = 50 := by simp [seasonOwnerPts, hist5]
  have hp2 : seasonOwnerPts hist5 "S1" "O2" = 40 := by simp [seasonOwnerPts, hist5]
  have hp3 : seasonOwnerPts hist5 "S1" "O3" = 40 := by simp [seasonOwnerPts, hist5]
  have hp4 : seasonOwnerPts hist5 "S1" "O4" = 30 := by simp [seasonOwnerPts, hist5]
  have hp5 : seasonOwnerPts hist5 "S1" "O5" = 20 := by simp [seasonOwnerPts, hist5]
  have hr1 : rankInSeason hist5 "S1" "O1" = 1 := by
    rw [rankInSeason, hso]; simp [hp1, hp2, hp3, hp4, hp5]
  have hr2 : rankInSeason hist5 "S1" "O2" = 2 := by
    rw [rankInSeason, hso]; simp [hp1, hp2, hp3, hp4, hp5]
  have hr3 : rankInSeason hist5 "S1" "O3" = 2 := by
    rw [rankInSeason, hso]; simp [hp1, hp2, hp3, hp4, hp5]
  have hr4 : rankInSeason hist5 "S1" "O4" = 4 := by
    rw [rankInSeason, hso]; simp [hp1, hp2, hp3, hp4, hp5]
  have hr5 : rankInSeason hist5 "S1" "O5" = 5 := by
    rw [rankInSeason, hso]; simp [hp1, hp2, hp3, hp4, hp5]
  have hs1 : ownerSeasons hist5 "O1" = ["S1"] := by
    simp [ownerSeasons, groupKeys, sortStrs, insortStr, hist5,
      -String.lt_iff_toList_lt, -String.le_iff_toList_le]
  have hs2 : ownerSeasons hist5 "O2" = ["S1"] := by
    simp [ownerSeasons, groupKeys, sortStrs, insortStr, hist5,
      -String.lt_iff_toList_lt, -String.le_iff_toList_le]
  have hs3 : ownerSeasons hist5 "O3" = ["S1"] := by
    simp [ownerSeasons, groupKeys, sortStrs, insortStr, hist5,
      -String.lt_iff_toList_lt, -String.le_iff_toList_le]
  have hs4 : ownerSeasons hist5 "O4" = ["S1"] := by
    simp [ownerSeasons, groupKeys, sortStrs, insortStr, hist5,
      -String.lt_iff_toList_lt, -String.le_iff_toList_le]
  have hs5 : ownerSeasons hist5 "O5" = ["S1"] := by
    simp [ownerSeasons, groupKeys, sortStrs, insortStr, hist5,
      -String.lt_iff_toList_lt, -String.le_iff_toList_le]
  refine ⟨?_, ?_, rfl, rfl, rfl, rfl, rfl, rfl, rfl⟩
  · rw [hko]
    simp [hr1, hr2, hr3, hr4, hr5]
  · rw [summaryRows, hko]
    simp only [List.map_cons, List.map_nil, mkSummaryRow]
    simp only [ownerPlayerMedals, hs1, hs2, hs3, hs4, hs5, hr1, hr2, hr3, hr4, hr5,
      List.map_cons, List.map_nil, List.sum_cons, List.sum_nil]
    norm_num [get_player_medals]

/-- C9: `calculate_historical_stats` does not leave its input unchanged —
lines 76 and 85 assign the new columns `Team_Medals` and `Relegated` on the
archive data frame the caller passed in, so after the call the input carries
two extra columns. -/
theorem C9_input_dataframe_mutated :
    (calculate_historical_stats_df histDF2).2.cols
      = histTablesCols ++ ["Team_Medals", "Relegated"] ∧
    (calculate_historical_stats_df histDF2).2 ≠ histDF2 := by
  have hc : (calculate_historical_stats_df histDF2).2.cols
      = histTablesCols ++ ["Team_Medals", "Relegated"] := by
    simp [calculate_historical_stats_df, histDF2, hist2, addCol, histTablesCols]
  refine ⟨hc, fun h => ?_⟩
  rw [h] at hc
  simp [histDF2, histTablesCols] at hc

end SPLF

namespace SPLF

/-- Helper: the tally step of a finished match whose two raw team names both
map to owners reduces to the branch structure of lines 132–144. -/
theorem processMatch_finished (owner_map : List (String × String))
    (riv : List ((String × String) × Tally)) (m : MatchRec) (oh oa : String)
    (hst : m.status = "FINISHED")
    (hh : dictGet owner_map m.homeTeam = some oh)
    (ha : dictGet owner_map m.awayTeam = some oa) :
    processMatch owner_map riv m =
      if oh = oa then riv
      else if oh < oa then bumpPair riv (oh, oa) (resIdxLt m.winner)
      else bumpPair riv (oa, oh) (resIdxGt m.winner) := by
  unfold processMatch
  rw [hst, hh, ha]
  simp

/-- Helper: exchanging `HOME_TEAM`/`AWAY_TEAM` in the winner turns the
flipped result index of lines 139–141 into the direct one of line 136. -/
theorem resIdxGt_swapWinner (w : Option String) :
    resIdxGt (swapWinner w) = resIdxLt w := by
  by_cases h1 : w = some "HOME_TEAM"
  · simp [swapWinner, resIdxGt, resIdxLt, h1]
  · by_cases h2 : w = some "AWAY_TEAM"
    · simp [swapWinner, resIdxGt, resIdxLt, h1, h2]
    · simp [swapWinner, resIdxGt, resIdxLt, h1, h2]

/-- Helper: the converse direction of `resIdxGt_swapWinner`. -/
theorem resIdxLt_swapWinner (w : Option String) :
    resIdxLt (swapWinner w) = resIdxGt w := by
  by_cases h1 : w = some "HOME_TEAM"
  · simp [swapWinner, resIdxGt, resIdxLt, h1]
  · by_cases h2 : w = some "AWAY_TEAM"
    · simp [swapWinner, resIdxGt, resIdxLt, h1, h2]
    · simp [swapWinner, resIdxGt, resIdxLt, h1, h2]

/-- C10: a missing matches document (`None`, e.g. after a failed live fetch)
makes `generate_rivalry_matrix` return an empty rivalry matrix rather than
raise, for every assignment table. -/
theorem C10_none_matches_yield_empty (assignments : List Assignment) :
    generate_rivalry_matrix none assignments = [] := rfl

/-- C4: a `FINISHED` match with a `null` winner IS silently coerced to a
draw by line 136 (`... else 1`): on a two-owner table it increments the
pair's draw counter and surfaces as a `0W - 1D - 0L` row, with no anomaly
flag or exclusion anywhere in the output. -/
theorem C4_null_winner_counted_as_draw :
    tallyMatches (buildOwnerMap exAssign4) [nullWinnerMatch]
      = [(("Adam", "Ben"), (0, 1, 0))] ∧
    generate_rivalry_matrix (some ⟨[nullWinnerMatch]⟩) exAssign4
      = [⟨"Adam vs Ben", "Tied", "0W - 1D - 0L", 1, 50⟩] := by
  have hh : dictGet (buildOwnerMap exAssign4) nullWinnerMatch.homeTeam = some "Adam" := rfl
  have ha : dictGet (buildOwnerMap exAssign4) nullWinnerMatch.awayTeam = some "Ben" := rfl
  have hlt : ("Adam" : String) < "Ben" := by
    simp only [String.reduceLT]
  have htal : tallyMatches (buildOwnerMap exAssign4) [nullWinnerMatch]
      = [(("Adam", "Ben"), (0, 1, 0))] := by
    unfold tallyMatches
    rw [List.foldl_cons, List.foldl_nil,
      processMatch_finished _ _ _ "Adam" "Ben" rfl hh ha]
    rw [if_neg (by decide : ¬("Adam" : String) = "Ben"), if_pos hlt]
    rfl
  refine ⟨htal, ?_⟩
  simp only [generate_rivalry_matrix]
  rw [htal]
  rfl

/-- C5: home/away symmetry — for a finished match between two distinct
owners, swapping home and away teams and exchanging `HOME_TEAM`/`AWAY_TEAM`
in the winner yields the identical rivalry output (same canonical pair key
and the same wins/draws/wins tally). -/
theorem C5_home_away_swap_invariant (a : List Assignment) (m : MatchRec) (oh oa : String)
    (hst : m.status = "FINISHED")
    (hh : dictGet (buildOwnerMap a) m.homeTeam = some oh)
    (ha : dictGet (buildOwnerMap a) m.awayTeam = some oa)
    (hne : oh ≠ oa) :
    generate_rivalry_matrix (some ⟨[m]⟩) a
      = generate_rivalry_matrix (some ⟨[swapMatch m]⟩) a := by
  have hh2 : dictGet (buildOwnerMap a) (swapMatch m).homeTeam = some oa := ha
  have ha2 : dictGet (buildOwnerMap a) (swapMatch m).awayTeam = some oh := hh
  have hst2 : (swapMatch m).status = "FINISHED" := hst
  have hwin : (swapMatch m).winner = swapWinner m.winner := rfl
  have htal : tallyMatches (buildOwnerMap a) [m]
      = tallyMatches (buildOwnerMap a) [swapMatch m] := by
    unfold tallyMatches
    rw [List.foldl_cons, List.foldl_nil, List.foldl_cons, List.foldl_nil,
      processMatch_finished _ _ _ oh oa hst hh ha,
      processMatch_finished _ _ _ oa oh hst2 hh2 ha2,
      hwin]
    rcases lt_trichotomy oh oa with hlt | heq | hgt
    · rw [if_neg hne, if_pos hlt, if_neg (Ne.symm hne), if_neg (asymm hlt),
        resIdxGt_swapWinner]
    · exact absurd heq hne
    · rw [if_neg hne, if_neg (asymm hgt), if_neg (Ne.symm hne), if_pos hgt,
        resIdxLt_swapWinner]
  simp only [generate_rivalry_matrix]
  rw [htal]

/-- C5 witness: the symmetry theorem applied to a concrete finished home win
between Adam's and Ben's teams. -/
theorem C5_home_away_swap_invariant_witness :
    homeWinMatch.status = "FINISHED" ∧
    dictGet (buildOwnerMap exAssign4) homeWinMatch.homeTeam = some "Adam" ∧
    dictGet (buildOwnerMap exAssign4) homeWinMatch.awayTeam = some "Ben" ∧
    ("Adam" : String) ≠ "Ben" ∧
    generate_rivalry_matrix (some ⟨[homeWinMatch]⟩) exAssign4
      = generate_rivalry_matrix (some ⟨[swapMatch homeWinMatch]⟩) exAssign4 :=
  ⟨rfl, rfl, rfl, by decide,
    C5_home_away_swap_invariant exAssign4 homeWinMatch "Adam" "Ben" rfl rfl rfl (by decide)⟩

/-- C6: a match whose two raw team names map to the same owner contributes
nothing — removing it from the match list leaves the whole rivalry output
(records and total-games counts alike) unchanged. -/
theorem C6_self_match_excluded (a : List Assignment) (pre post : List MatchRec)
    (m : MatchRec) (o : String)
    (hh : dictGet (buildOwnerMap a) m.homeTeam = some o)
    (ha : dictGet (buildOwnerMap a) m.awayTeam = some o) :
    generate_rivalry_matrix (some ⟨pre ++ m :: post⟩) a
      = generate_rivalry_matrix (some ⟨pre ++ post⟩) a := by
  have hskip : ∀ riv, processMatch (buildOwnerMap a) riv m = riv := by
    intro riv
    by_cases hst : m.status = "FINISHED"
    · rw [processMatch_finished _ _ _ o o hst hh ha, if_pos rfl]
    · unfold processMatch
      rw [if_neg hst]
  have htal : tallyMatches (buildOwnerMap a) (pre ++ m :: post)
      = tallyMatches (buildOwnerMap a) (pre ++ post) := by
    unfold tallyMatches
    rw [List.foldl_append, List.foldl_append, List.foldl_cons, hskip]
  simp only [generate_rivalry_matrix]
  rw [htal]

/-- C6 witness: a concrete self-match (both teams Adam's) inserted into an
empty match list leaves the output identical to the output without it. -/
theorem C6_self_match_excluded_witness :
    dictGet (buildOwnerMap exAssign6) selfMatch.homeTeam = some "Adam" ∧
    dictGet (buildOwnerMap exAssign6) selfMatch.awayTeam = some "Adam" ∧
    generate_rivalry_matrix (some ⟨[] ++ selfMatch :: []⟩) exAssign6
      = generate_rivalry_matrix (some ⟨[] ++ []⟩) exAssign6 :=
  ⟨rfl, rfl, C6_self_match_excluded exAssign6 [] [] selfMatch "Adam" rfl rfl⟩

end SPLF

namespace SPLF

/-- Helper: `orderedInsert` leaves the sublist of any fixed key value
unchanged apart from prepending the inserted element when it has that key —
every element it skips over has a key strictly below the inserted one. -/
theorem filter_orderedInsert_key {α : Type} (key : α → ℚ) (q : ℚ) (a : α) (l : List α) :
    (List.orderedInsert (fun x y => key x ≤ key y) a l).filter (fun x => key x = q)
      = if key a = q then a :: l.filter (fun x => key x = q)
        else l.filter (fun x => key x = q) := by
  rw [List.orderedInsert_eq_take_drop, List.filter_append, List.filter_cons]
  by_cases ha : key a = q
  · have htw : (List.takeWhile (fun b => decide ¬ (key a ≤ key b)) l).filter
        (fun x => key x = q) = [] := by
      rw [List.filter_eq_nil_iff]
      intro b hb
      have hlt := List.mem_takeWhile_imp hb
      simp only [decide_eq_true_eq] at hlt
      simp only [decide_eq_true_eq]
      intro hbq
      exact hlt (by rw [ha, hbq])
    have hdw : l.filter (fun x => key x = q)
        = (List.dropWhile (fun b => decide ¬ (key a ≤ key b)) l).filter
            (fun x => key x = q) := by
      conv_lhs => rw [← List.takeWhile_append_dropWhile
        (fun b => decide ¬ (key a ≤ key b)) l]
      rw [List.filter_append, htw, List.nil_append]
    rw [htw, if_pos (by simp [ha]), if_pos ha, hdw, List.nil_append]
  · rw [if_neg (by simp [ha]), if_neg ha]
    conv_rhs => rw [← List.takeWhile_append_dropWhile
      (fun b => decide ¬ (key a ≤ key b)) l]
    rw [List.filter_append]

/-- Helper: a stable ascending insertion sort preserves the relative order
of the elements sharing any fixed key value. -/
theorem filter_insertionSort_key {α : Type} (key : α → ℚ) (q : ℚ) :
    ∀ l : List α,
      (List.insertionSort (fun x y => key x ≤ key y) l).filter (fun x => key x = q)
        = l.filter (fun x => key x = q)
  | [] => rfl
  | a :: l => by
    rw [List.insertionSort,
      filter_orderedInsert_key key q a (List.insertionSort (fun x y => key x ≤ key y) l),
      List.filter_cons]
    by_cases ha : key a = q
    · rw [if_pos ha, if_pos (by simp [ha]), filter_insertionSort_key key q l]
    · rw [if_neg ha, if_neg (by simp [ha]), filter_insertionSort_key key q l]

/-- Helper: pandas' descending sort keeps the rows of any fixed key value in
their original relative order — the two reversals of `nargsort` cancel
around the stable ascending sort. -/
theorem filter_pandasSortDesc {α : Type} (key : α → ℚ) (q : ℚ) (l : List α) :
    (pandasSortDesc key l).filter (fun x => key x = q)
      = l.filter (fun x => key x = q) := by
  rw [pandasSortDesc, sortAscBy, List.filter_reverse, filter_insertionSort_key,
    List.filter_reverse, List.reverse_reverse]

/-- Helper: pandas' descending sort is a permutation of its input. -/
theorem pandasSortDesc_perm {α : Type} (key : α → ℚ) (l : List α) :
    (pandasSortDesc key l).Perm l := by
  rw [pandasSortDesc, sortAscBy]
  exact ((List.reverse_perm _).trans (List.perm_insertionSort _ _)).trans
    (List.reverse_perm l)

/-- C8: for every non-empty archive the output ranks are exactly the
contiguous list 1..N (N the number of distinct owners — no duplicates or
gaps), the rows are in descending cumulative-money order, and they are a
stable reordering of the owner summaries: the output rows are a permutation
of the summary rows in which the rows of each fixed money value — in
particular tied owners — keep their original relative order. -/
theorem C8_ranks_contiguous_stable (df : List HistRow) (h : df ≠ []) :
    ((calculate_historical_stats df).map (fun r => r.rank))
      = List.range' 1 (histOwners df).length ∧
    List.Sorted (fun a b : ℚ => a ≥ b)
      ((calculate_historical_stats df).map (fun r => r.row.money)) ∧
    ((calculate_historical_stats df).map (fun r => r.row)).Perm (summaryRows df) ∧
    ∀ q : ℚ, ((calculate_historical_stats df).map (fun r => r.row)).filter
        (fun s => s.money = q)
      = (summaryRows df).filter (fun s => s.money = q) := by
  have hne : ¬ (df.isEmpty = true) := by
    simp only [List.isEmpty_iff]
    exact h
  rw [calculate_historical_stats, if_neg hne]
  have hrow : (((pandasSortDesc (fun s => s.money) (summaryRows df)).enumFrom 1).map
      (fun p : ℕ × SummaryRow => (⟨p.1, p.2⟩ : RankedRow))).map (fun r => r.row)
        = pandasSortDesc (fun s => s.money) (summaryRows df) := by
    rw [List.map_map,
      show ((fun r : RankedRow => r.row) ∘ fun p : ℕ × SummaryRow => (⟨p.1, p.2⟩ : RankedRow))
        = Prod.snd from rfl,
      List.enumFrom_map_snd]
  have hlen : (pandasSortDesc (fun s => s.money) (summaryRows df)).length
      = (histOwners df).length := by
    rw [pandasSortDesc, List.length_reverse, sortAscBy,
      (List.perm_insertionSort _ _).length_eq, List.length_reverse, summaryRows,
      List.length_map]
  refine ⟨?_, ?_, ?_, ?_⟩
  · rw [List.map_map,
      show ((fun r : RankedRow => r.rank) ∘ fun p : ℕ × SummaryRow => (⟨p.1, p.2⟩ : RankedRow))
        = Prod.fst from rfl,
      List.enumFrom_map_fst, hlen]
  · rw [List.map_map,
      show ((fun r : RankedRow => r.row.money) ∘ fun p : ℕ × SummaryRow => (⟨p.1, p.2⟩ : RankedRow))
        = ((fun s : SummaryRow => s.money) ∘ Prod.snd) from rfl,
      ← List.map_map, List.enumFrom_map_snd, pandasSortDesc, sortAscBy, List.map_reverse]
    apply List.pairwise_reverse.mpr
    haveI hto : IsTotal SummaryRow (fun a b => a.money ≤ b.money) :=
      ⟨fun a b => le_total a.money b.money⟩
    haveI htr : IsTrans SummaryRow (fun a b => a.money ≤ b.money) :=
      ⟨fun _ _ _ hab hbc => le_trans hab hbc⟩
    exact List.Pairwise.map (fun s : SummaryRow => s.money) (fun _ _ hab => hab)
      (List.sorted_insertionSort (fun a b : SummaryRow => a.money ≤ b.money)
        ((summaryRows df).reverse))
  · rw [hrow]
    exact pandasSortDesc_perm (fun s => s.money) (summaryRows df)
  · intro q
    rw [hrow]
    exact filter_pandasSortDesc (fun s => s.money) q (summaryRows df)

/-- C8 witness: the contiguity/descending/stable-tie theorem applied to the
concrete two-owner archive `hist2`. -/
theorem C8_ranks_contiguous_stable_witness :
    hist2 ≠ [] ∧
    (((calculate_historical_stats hist2).map (fun r => r.rank))
        = List.range' 1 (histOwners hist2).length ∧
     List.Sorted (fun a b : ℚ => a ≥ b)
       ((calculate_historical_stats hist2).map (fun r => r.row.money)) ∧
     ((calculate_historical_stats hist2).map (fun r => r.row)).Perm (summaryRows hist2) ∧
     ∀ q : ℚ, ((calculate_historical_stats hist2).map (fun r => r.row)).filter
         (fun s => s.money = q)
       = (summaryRows hist2).filter (fun s => s.money = q)) :=
  ⟨by simp [hist2], C8_ranks_contiguous_stable hist2 (by simp [hist2])⟩

end SPLF
